import Mathlib

/-!
Verification development for the x402 payment facilitator of the
solana-station repository.  The definitions below are shallow embeddings of
the TypeScript sources (x402-facilitator: index.ts, receipts.ts, types.ts,
solana.ts).  Strings are modelled by Lean `String`, byte buffers by
`List Nat` (each entry < 256), JS numbers by `Nat` (all quantities involved
are non-negative integers; `Number` conversion is exact below 2^53, which the
relevant theorems assume explicitly), and the network calls of the service
(JSON parsing of untrusted input, transaction deserialization, ledger
simulation, ledger submission, backend fetch) by oracle functions passed to
the request handler.
-/

namespace SolanaStation

/-- Base64 alphabet, as used by Node `Buffer.toString base64`. -/
def base64Table : List Char :=
  "ABCDEFGHIJKLMNOPQRSTUVWXYZabcdefghijklmnopqrstuvwxyz0123456789+/".data

/-- Character for a 6-bit group. -/
def sextetChar (n : Nat) : Char := base64Table.getD n 'A'

/-- Index of a base64 character in the alphabet (none for padding or junk). -/
def charSextet (c : Char) : Option Nat := base64Table.findIdx? (fun d => d == c)

/-- Base64-encode a byte list, three bytes at a time, with `=` padding,
matching Node `Buffer.from(bytes).toString base64`. -/
def encodeChunks : List Nat → List Char
  | [] => []
  | [b0] => [sextetChar (b0 / 4), sextetChar (b0 % 4 * 16), '=', '=']
  | [b0, b1] => [sextetChar (b0 / 4), sextetChar (b0 % 4 * 16 + b1 / 16),
                 sextetChar (b1 % 16 * 4), '=']
  | b0 :: b1 :: b2 :: rest =>
    let c := b0 * 65536 + b1 * 256 + b2
    sextetChar (c / 262144) :: sextetChar (c / 4096 % 64) ::
    sextetChar (c / 64 % 64) :: sextetChar (c % 64) :: encodeChunks rest

/-- Base64-decode, four characters at a time, handling final padding. -/
def decodeChunks : List Char → Option (List Nat)
  | [] => some []
  | c0 :: c1 :: c2 :: c3 :: rest =>
    if c2 = '=' ∧ c3 = '=' ∧ rest = [] then
      match charSextet c0, charSextet c1 with
      | some s0, some s1 => some [s0 * 4 + s1 / 16]
      | _, _ => none
    else if c3 = '=' ∧ rest = [] then
      match charSextet c0, charSextet c1, charSextet c2 with
      | some s0, some s1, some s2 => some [s0 * 4 + s1 / 16, s1 % 16 * 16 + s2 / 4]
      | _, _, _ => none
    else
      match charSextet c0, charSextet c1, charSextet c2, charSextet c3 with
      | some s0, some s1, some s2, some s3 =>
        let n := s0 * 262144 + s1 * 4096 + s2 * 64 + s3
        (decodeChunks rest).map
          (fun bs => n / 65536 :: n / 256 % 256 :: n % 256 :: bs)
      | _, _, _, _ => none
  | _ => none

/-- UTF-16 code units of a string, as bytes; faithful to Node UTF-8 bytes
only for ASCII content (see `asciiOnly`). -/
def strBytes (s : String) : List Nat := s.data.map Char.toNat

/-- All characters ASCII, so that `strBytes` agrees with UTF-8. -/
def asciiOnly (s : String) : Bool := s.data.all (fun c => c.toNat < 128)

/-- Node `Buffer.from(s).toString base64` for ASCII `s`. -/
def base64EncodeString (s : String) : String := String.mk (encodeChunks (strBytes s))

/-- Strict base64 decoding of a string back to the underlying bytes. -/
def base64DecodeToBytes (s : String) : Option (List Nat) := decodeChunks s.data

/-! JSON values, as produced by the service and exchanged with the backend. -/

inductive Json where
  | null : Json
  | bool : Bool → Json
  | num : Nat → Json
  | str : String → Json
  | arr : List Json → Json
  | obj : List (String × Json) → Json
deriving Repr

/-- Hex digit character (lowercase), for JSON control-character escapes. -/
def hexDigit (d : Nat) : Char := if d < 10 then Char.ofNat (48 + d) else Char.ofNat (87 + d)

/-- Escape one character the way `JSON.stringify` does. -/
def escChar (c : Char) : String :=
  if c = '"' then "\\\""
  else if c = '\\' then "\\\\"
  else if c.toNat = 10 then "\\n"
  else if c.toNat = 13 then "\\r"
  else if c.toNat = 9 then "\\t"
  else if c.toNat = 8 then "\\b"
  else if c.toNat = 12 then "\\f"
  else if c.toNat < 32 then "\\u00" ++ String.mk [hexDigit (c.toNat / 16), hexDigit (c.toNat % 16)]
  else String.mk [c]

def jsonEscape (s : String) : String := String.join (s.data.map escChar)

-- Serialization following `JSON.stringify`: object keys in insertion order,
-- no whitespace.
mutual

def stringify : Json → String
  | .null => "null"
  | .bool true => "true"
  | .bool false => "false"
  | .num n => Nat.repr n
  | .str s => "\"" ++ jsonEscape s ++ "\""
  | .arr xs => "[" ++ stringifyItems xs ++ "]"
  | .obj kvs => "\x7b" ++ stringifyFields kvs ++ "\x7d"

def stringifyItems : List Json → String
  | [] => ""
  | [x] => stringify x
  | x :: y :: rest => stringify x ++ "," ++ stringifyItems (y :: rest)

def stringifyFields : List (String × Json) → String
  | [] => ""
  | [(k, v)] => "\"" ++ jsonEscape k ++ "\":" ++ stringify v
  | (k, v) :: f :: rest =>
    "\"" ++ jsonEscape k ++ "\":" ++ stringify v ++ "," ++ stringifyFields (f :: rest)

end

/-- Field lookup on a JSON object (member access on a parsed JS value); `none`
for a missing key or a non-object. -/
def getField (j : Json) (k : String) : Option Json :=
  match j with
  | .obj kvs => (kvs.find? (fun e => e.1 == k)).map (fun e => e.2)
  | _ => none

/-- Replace the value at a key, keeping its position, or append the pair
(JS property assignment on an object). -/
def setField : List (String × Json) → String → Json → List (String × Json)
  | [], k, v => [(k, v)]
  | (k0, v0) :: rest, k, v =>
    if k0 = k then (k, v) :: rest else (k0, v0) :: setField rest k v

/-- JS truthiness of an optional field value (`undefined` is falsy). -/
def jsTruthy : Option Json → Bool
  | none => false
  | some .null => false
  | some (.bool b) => b
  | some (.num n) => n != 0
  | some (.str s) => s != ""
  | some (.arr _) => true
  | some (.obj _) => true

/-- A JSON primitive value (boolean, number or string): in strict mode,
assigning a property onto one of these throws a TypeError. -/
def jsonIsPrim : Json → Bool
  | .bool _ => true
  | .num _ => true
  | .str _ => true
  | _ => false

/-- JS truthiness of an optional string (`undefined` and `""` are falsy). -/
def jsTruthyStr : Option String → Bool
  | none => false
  | some s => s != ""

/-- JS `a || b` on optional strings. -/
def jsOrStr (a b : Option String) : Option String := if jsTruthyStr a then a else b

/-! ReceiptCache (receipts.ts).  The JS `Map` is modelled by an association
list in insertion order: `set` on an existing key updates the value in place,
otherwise appends; times are milliseconds. -/

structure Receipt where
  signature : String
  payer : String
  amount : Nat
  resource : String
  timestamp : Nat
  expiresAt : Nat
deriving Repr, DecidableEq

def TTL_MS : Nat := 5 * 60 * 1000

/-- The `Map<string, Receipt>` state. -/
def CacheState := List (String × Receipt)

/-- JS `Map.prototype.set`. -/
def mapSet : CacheState → String → Receipt → CacheState
  | [], k, v => [(k, v)]
  | (k0, v0) :: rest, k, v =>
    if k0 = k then (k, v) :: rest else (k0, v0) :: mapSet rest k v

/-- JS `Map.prototype.get`. -/
def mapGet (l : CacheState) (k : String) : Option Receipt :=
  (l.find? (fun e => e.1 == k)).map (fun e => e.2)

/-- JS `Map.prototype.delete`. -/
def mapDelete (l : CacheState) (k : String) : CacheState :=
  l.eraseP (fun e => e.1 == k)

/-- `cleanup`: remove every receipt with `now > expiresAt`. -/
def cleanup (now : Nat) (l : CacheState) : CacheState :=
  l.filter (fun e => !(decide (now > e.2.expiresAt)))

def mkReceipt (now : Nat) (sig payer : String) (amount : Nat) (resource : String) : Receipt :=
  { signature := sig, payer := payer, amount := amount, resource := resource,
    timestamp := now, expiresAt := now + TTL_MS }

/-- `ReceiptCache.store`: insert with `expiresAt = now + TTL`, then cleanup. -/
def store (now : Nat) (l : CacheState) (sig payer : String) (amount : Nat)
    (resource : String) : CacheState :=
  cleanup now (mapSet l sig (mkReceipt now sig payer amount resource))

/-- `ReceiptCache.isUsed`: live-record test with lazy expiry; returns the
answer and the (possibly mutated) map. -/
def isUsed (now : Nat) (l : CacheState) (sig : String) : Bool × CacheState :=
  match mapGet l sig with
  | none => (false, l)
  | some r => if now > r.expiresAt then (false, mapDelete l sig) else (true, l)

/-- `ReceiptCache.get`: live-record lookup with lazy expiry. -/
def getReceipt (now : Nat) (l : CacheState) (sig : String) : Option Receipt × CacheState :=
  match mapGet l sig with
  | none => (none, l)
  | some r => if now > r.expiresAt then (none, mapDelete l sig) else (some r, l)

/-- Number of entries stored under a key. -/
def countKey (l : CacheState) (k : String) : Nat :=
  (l.filter (fun e => e.1 == k)).length

/-- Well-formedness of a `Map` state: keys occur at most once. -/
def cacheWF (l : CacheState) : Prop := (l.map Prod.fst).Nodup

/-! SolanaVerifier.verifyTransaction (solana.ts).  Public keys are modelled
by their base58 strings (`PublicKey.equals` is equality, `toString` is the
identity), instruction data by a byte list.  `Number(readBigUInt64LE ...)`
is modelled as the exact integer, which matches the JS value whenever it is
below 2^53 (the theorems assume this bound explicitly). -/

def systemProgramId : String := "11111111111111111111111111111111"

structure Instr where
  programId : String
  data : List Nat
  keys : List String
deriving Repr, DecidableEq

structure Tx where
  signatures : List String
  instructions : List Instr
deriving Repr, DecidableEq

/-- Node `Buffer.readUInt32LE(off)`: little-endian, throws (none) when fewer
than 4 bytes are available. -/
def readUInt32LE (d : List Nat) (off : Nat) : Option Nat :=
  if off + 4 ≤ d.length then
    some (d.getD off 0 + d.getD (off + 1) 0 * 256 +
          d.getD (off + 2) 0 * 65536 + d.getD (off + 3) 0 * 16777216)
  else none

/-- Node `Buffer.readBigUInt64LE(off)`: little-endian, throws (none) when
fewer than 8 bytes are available. -/
def readUInt64LE (d : List Nat) (off : Nat) : Option Nat :=
  if off + 8 ≤ d.length then
    some (d.getD off 0 + d.getD (off + 1) 0 * 256 +
          d.getD (off + 2) 0 * 65536 + d.getD (off + 3) 0 * 16777216 +
          d.getD (off + 4) 0 * 4294967296 + d.getD (off + 5) 0 * 1099511627776 +
          d.getD (off + 6) 0 * 281474976710656 + d.getD (off + 7) 0 * 72057594037927936)
  else none

structure VerifyResult where
  isValid : Bool
  invalidReason : Option String
  payer : Option String
  amount : Option Nat
deriving Repr, DecidableEq

/-- Outcome of the instruction loop in `verifyTransaction`. -/
inductive ScanOut where
  | found : Nat → ScanOut
  | insufficient : Nat → ScanOut
  | nomatch : ScanOut
  | errorOut : ScanOut
deriving Repr, DecidableEq

/-- The `for` loop of `verifyTransaction`: skip non-system-program
instructions, decode opcode (u32 LE at 0) and, for opcode 2 (Transfer),
amount (u64 LE at 4) and destination (`keys[1]`); a missing destination key
is skipped (`continue`); the first instruction paying the recipient decides;
a short read throws, landing in the surrounding catch (`errorOut`). -/
def scanInstrs (recipient : String) (expected : Nat) : List Instr → ScanOut
  | [] => .nomatch
  | i :: rest =>
    if i.programId = systemProgramId then
      match readUInt32LE i.data 0 with
      | none => .errorOut
      | some t =>
        if t = 2 then
          match readUInt64LE i.data 4 with
          | none => .errorOut
          | some amt =>
            match i.keys[1]? with
            | none => scanInstrs recipient expected rest
            | some toAccount =>
              if toAccount = recipient then
                if amt ≥ expected then .found amt else .insufficient amt
              else scanInstrs recipient expected rest
        else scanInstrs recipient expected rest
    else scanInstrs recipient expected rest

/-- `SolanaVerifier.verifyTransaction`.  On a decoding throw the catch
produces an `invalidReason` of the form `verification_error: <message>`;
the model keeps the fixed label `verification_error` for it. -/
def verifyTransaction (recipient : String) (tx : Tx) (expected : Nat) : VerifyResult :=
  match scanInstrs recipient expected tx.instructions with
  | .found amt =>
    { isValid := true, invalidReason := none, payer := tx.signatures.head?, amount := some amt }
  | .insufficient amt =>
    { isValid := false, invalidReason := some "amount_insufficient", payer := none,
      amount := some amt }
  | .nomatch =>
    { isValid := false, invalidReason := some "no_valid_transfer_to_recipient", payer := none,
      amount := none }
  | .errorOut =>
    { isValid := false, invalidReason := some "verification_error", payer := none, amount := none }

/-- Spec-side predicate, from the claim wording: a native-transfer-program
transfer instruction whose destination equals the configured recipient. -/
def isRecipientTransfer (recipient : String) (i : Instr) : Bool :=
  i.programId == systemProgramId && readUInt32LE i.data 0 == some 2 &&
    i.keys[1]? == some recipient

/-- Spec-side scan, from the claim wording: amount of the first instruction
targeting the recipient. -/
def firstRecipientTransfer (recipient : String) (instrs : List Instr) : Option Nat :=
  (instrs.find? (isRecipientTransfer recipient)).bind (fun i => readUInt64LE i.data 4)

/-- Decodability assumption on the transaction: every system-program
instruction carries at least 4 bytes of data, and at least 12 when its
opcode is 2 — exactly the condition under which the loop never throws. -/
def wfSysInstrs (instrs : List Instr) : Bool :=
  instrs.all (fun i =>
    if i.programId = systemProgramId then
      match readUInt32LE i.data 0 with
      | none => false
      | some t => if t = 2 then decide (12 ≤ i.data.length) else true
    else true)

/-! The facilitator server (index.ts).  The request handler is a pure
function of the request, the environment, the receipt-cache state, the
clock, and a set of oracles standing for its effectful collaborators. -/

/-- Environment configuration (NETWORK, PAYMENT_RECIPIENT, BACKEND_URL). -/
structure Env where
  network : String
  recipient : String
  backendUrl : String

/-- One protected-resource rule.  `pat.test(path)` on these literal regexes
is substring containment. -/
structure ProtectedResource where
  pat : String
  price : Nat
  description : String
deriving Repr, DecidableEq

/-- The PROTECTED_RESOURCES table. -/
def PROTECTED_RESOURCES : List ProtectedResource :=
  [ { pat := "/api/reports/risk/", price := 1000000, description := "Risk Analysis (0.001 SOL)" },
    { pat := "/api/reports/rewards/", price := 500000,
      description := "Rewards Detection (0.0005 SOL)" },
    { pat := "/api/reports/il/", price := 2000000, description := "IL Simulation (0.002 SOL)" },
    { pat := "/api/reports/yield/", price := 1500000,
      description := "Yield Analysis (0.0015 SOL)" } ]

/-- Contiguous-substring test: does `pat` occur somewhere in the list? -/
def containsSeq (pat : List Char) : List Char → Bool
  | [] => pat.isEmpty
  | c :: rest => pat.isPrefixOf (c :: rest) || containsSeq pat rest

/-- `findProtectedResource`: first rule whose pattern occurs in the path. -/
def findProtectedResource (path : String) : Option ProtectedResource :=
  PROTECTED_RESOURCES.find? (fun r => containsSeq r.pat.data path.data)

/-- Inbound request.  `path` is the Express `req.path` (no query string);
`query` is the raw query-string part of the original URL (empty or
starting with a question mark). -/
structure Request where
  method : String
  path : String
  query : String
  protocol : String
  host : String
  headers : List (String × String)
  body : Json

/-- Lower-casing of a header name, character by character
(`String.toLower`, written over the character list). -/
def lowerStr (s : String) : String := String.mk (s.data.map Char.toLower)

/-- Case-insensitive header lookup (Express `req.header`). -/
def getHeader (hs : List (String × String)) (name : String) : Option String :=
  (hs.find? (fun h => lowerStr h.1 == lowerStr name)).map (fun h => h.2)

/-- Remove the first occurrence of `pat` from a character list
(JS `String.prototype.replace` with a plain-string pattern and an empty
replacement). -/
def removeFirstSeq (pat : List Char) : List Char → List Char
  | [] => []
  | c :: rest =>
    if pat.isPrefixOf (c :: rest) then (c :: rest).drop pat.length
    else c :: removeFirstSeq pat rest

def removeFirstStr (pat s : String) : String := String.mk (removeFirstSeq pat.data s.data)

/-- Shape of the JSON payload carried by the X-Payment header, after
`JSON.parse`; absent/mistyped members are `none`. -/
structure ParsedPayload where
  x402Version : Option Nat
  scheme : Option String
  network : Option String
  payloadT : Option String
  payloadS : Option String
deriving Repr, DecidableEq

/-- The decoded and validated PaymentPayload. -/
structure PaymentPayload where
  network : String
  transaction : Option String
  serializedTransaction : Option String
deriving Repr, DecidableEq

/-- Result of `simulateTransaction` (the `simulation.value.err` branch is
`success := false` with the JSON-stringified error detail). -/
structure SimResult where
  success : Bool
  error : Option String
deriving Repr, DecidableEq

/-- Result of `settleTransaction`. -/
structure SettleResult where
  success : Bool
  signature : Option String
  error : Option String
deriving Repr, DecidableEq

/-- The SettleResponse record built after successful settlement
(`success` is always true there). -/
structure SettleResponse where
  payer : Option String
  transaction : String
  network : String
deriving Repr, DecidableEq

/-- The request forwarded to the content backend by `proxyToBackend`. -/
structure BackendCall where
  url : String
  method : String
  headers : List (String × String)
  body : Option Json

/-- A backend response that parsed as JSON (`fetch` + `response.json()`);
the oracle returns `none` when either step throws. -/
structure BackendReply where
  status : Nat
  body : Json

/-- Effectful collaborators of the handler.  `parse` stands for
`JSON.parse(Buffer.from(header, base64))` on the X-Payment header (error =
thrown message); `deserialize` for `Transaction.from(Buffer.from(txData,
base64))`; `simulate` and `settle` for the two ledger calls (`settle`
receives the base64 transaction string whose bytes are submitted);
`backend` for the fetch to the content backend. -/
structure Oracles where
  parse : String → Except String ParsedPayload
  deserialize : String → Except String Tx
  simulate : Tx → SimResult
  settle : String → SettleResult
  backend : BackendCall → Option BackendReply

/-- Network calls observable while handling a request. -/
inductive Effect where
  | simulated : Tx → Effect
  | settled : String → Effect
  | fetched : BackendCall → Effect

/-- Outbound HTTP response. -/
structure Response where
  status : Nat
  headers : List (String × String)
  body : Json

structure HandlerOut where
  resp : Response
  effects : List Effect
  cache : CacheState

/-- `encodeHeader`: base64 of the JSON serialization. -/
def encodeHeaderJ (j : Json) : String := base64EncodeString (stringify j)

/-- `createX402Response` as a JSON value, with `JSON.stringify` member
order. -/
def createX402Response (env : Env) (r : ProtectedResource) (resourceUrl : String) : Json :=
  .obj [("x402Version", .num 1), ("error", .str "Payment Required"),
        ("accepts", .arr [ .obj
          [("scheme", .str "exact"), ("network", .str env.network),
           ("maxAmountRequired", .str (Nat.repr r.price)), ("resource", .str resourceUrl),
           ("description", .str r.description), ("mimeType", .str "application/json"),
           ("payTo", .str env.recipient), ("maxTimeoutSeconds", .num 300),
           ("asset", .str "So11111111111111111111111111111111111111112")] ])]

/-- A 402 error body `{ x402Version: 1, error: <msg> }`. -/
def err402Body (msg : String) : Json :=
  .obj [("x402Version", .num 1), ("error", .str msg)]

def err402 (msg : String) : Response := { status := 402, headers := [], body := err402Body msg }

/-- `decodePaymentHeader`: parse, validate version / scheme / network,
extract the transaction under either legacy field name and normalize.
The error string is the thrown message. -/
def decodePaymentHeader (parse : String → Except String ParsedPayload) (header : String) :
    Except String PaymentPayload :=
  match parse header with
  | .error m => .error m
  | .ok p =>
    if p.x402Version ≠ some 1 then .error "Invalid x402Version"
    else if p.scheme ≠ some "exact" then .error "Invalid scheme"
    else
      match p.network with
      | none => .error "Missing network"
      | some n =>
        if n = "" then .error "Missing network"
        else
          if jsTruthyStr (jsOrStr p.payloadT p.payloadS) = false then
            .error "Missing transaction data"
          else
            .ok { network := n,
                  transaction :=
                    if jsTruthyStr p.payloadT = false && jsTruthyStr p.payloadS then p.payloadS
                    else p.payloadT,
                  serializedTransaction := p.payloadS }

/-- JSON serialization of a SettleResponse, with `JSON.stringify` member
order (an undefined `payer` member is dropped). -/
def settleResponseJson (sr : SettleResponse) : Json :=
  .obj ([("success", .bool true)] ++
    (match sr.payer with | some p => [("payer", .str p)] | none => []) ++
    [("transaction", .str sr.transaction), ("network", .str sr.network)])

/-- The `paymentDetails` object injected into the backend body. -/
def paymentDetailsJson (sr : SettleResponse) : Json :=
  .obj ([("signature", .str sr.transaction)] ++
    (match sr.payer with | some p => [("payer", .str p)] | none => []) ++
    [("explorerUrl",
      .str ("https://explorer.solana.com/tx/" ++ sr.transaction ++ "?cluster=devnet"))])

def failBody : Json := .obj [("success", .bool false), ("error", .str "Backend unavailable")]

/-- The headers and body of the forwarded request built in `proxyToBackend`. -/
def mkBackendCall (env : Env) (req : Request) (targetPath : String)
    (settleO : Option SettleResponse) : BackendCall :=
  { url := env.backendUrl ++ targetPath,
    method := req.method,
    headers := [("Content-Type", "application/json"), ("X-Facilitator-Verified", "true")] ++
      (match settleO with
       | some sr => [("X-Payment-Settled", encodeHeaderJ (settleResponseJson sr))]
       | none => []),
    body := if req.method ≠ "GET" then some req.body else none }

/-- `proxyToBackend`.  After a settled payment the PAYMENT-RESPONSE header
is set once the backend reply has parsed; the `data.success && data.data`
truthiness test then guards the injection of `paymentVerified` and
`paymentDetails` into `data.data`.  Member access on a JSON `null` body
throws, and (in strict mode) so does property assignment on a truthy
primitive, both caught by the surrounding try into the 502 branch;
properties assigned onto an array are dropped again by `res.json`
serialization, leaving the relayed body unchanged. -/
def proxyToBackend (env : Env) (O : Oracles) (req : Request) (targetPath : String)
    (settleO : Option SettleResponse) : Response × List Effect :=
  let call := mkBackendCall env req targetPath settleO
  match O.backend call with
  | none => ({ status := 502, headers := [], body := failBody }, [.fetched call])
  | some reply =>
    let hs := match settleO with
      | some sr => [("PAYMENT-RESPONSE", encodeHeaderJ (settleResponseJson sr))]
      | none => []
    match settleO with
    | none => ({ status := reply.status, headers := hs, body := reply.body }, [.fetched call])
    | some sr =>
      match reply.body with
      | .null => ({ status := 502, headers := hs, body := failBody }, [.fetched call])
      | b =>
        if jsTruthy (getField b "success") && jsTruthy (getField b "data") then
          match b, getField b "data" with
          | .obj bkvs, some (.obj fs) =>
            ({ status := reply.status, headers := hs,
               body := .obj (setField bkvs "data" (.obj
                 (setField (setField fs "paymentVerified" (.bool true))
                   "paymentDetails" (paymentDetailsJson sr)))) }, [.fetched call])
          | _, some (.arr _) =>
            ({ status := reply.status, headers := hs, body := b }, [.fetched call])
          | _, _ => ({ status := 502, headers := hs, body := failBody }, [.fetched call])
        else
          ({ status := reply.status, headers := hs, body := b }, [.fetched call])

/-- The main proxy endpoint handler (app.all on /x402/proxy/*). -/
def handleProxy (env : Env) (O : Oracles) (now : Nat) (cache : CacheState) (req : Request) :
    HandlerOut :=
  let targetPath := removeFirstStr "/x402/proxy" req.path
  let resourceUrl := req.protocol ++ "://" ++ req.host ++ req.path ++ req.query
  match findProtectedResource targetPath with
  | none =>
    let pr := proxyToBackend env O req targetPath none
    { resp := pr.1, effects := pr.2, cache := cache }
  | some r =>
    -- `req.header X-Payment || req.header x-payment`: both lookups are the
    -- same case-insensitive lookup; an empty header value is falsy.
    let challenge : HandlerOut :=
      let x := createX402Response env r resourceUrl
      { resp := { status := 402, headers := [("PAYMENT-REQUIRED", encodeHeaderJ x)], body := x },
        effects := [], cache := cache }
    match getHeader req.headers "X-Payment" with
    | none => challenge
    | some hdr =>
      if hdr = "" then challenge
      else
        match decodePaymentHeader O.parse hdr with
        | .error m => { resp := err402 m, effects := [], cache := cache }
        | .ok payload =>
          if payload.network ≠ env.network then
            { resp := err402 ("Network mismatch: expected " ++ env.network),
              effects := [], cache := cache }
          else
            match jsOrStr payload.transaction payload.serializedTransaction with
            | none => { resp := err402 "Missing transaction", effects := [], cache := cache }
            | some td =>
              if td = "" then
                { resp := err402 "Missing transaction", effects := [], cache := cache }
              else
                match O.deserialize td with
                | .error m => { resp := err402 m, effects := [], cache := cache }
                | .ok tx =>
                  let vr := verifyTransaction env.recipient tx r.price
                  if vr.isValid = false then
                    { resp := err402 (vr.invalidReason.getD ""), effects := [], cache := cache }
                  else
                    let sim := O.simulate tx
                    if sim.success = false then
                      { resp := err402 ("simulation_failed: " ++ sim.error.getD "undefined"),
                        effects := [.simulated tx], cache := cache }
                    else
                      let sr := O.settle td
                      if sr.success = false then
                        { resp := err402 ("settlement_failed: " ++ sr.error.getD "undefined"),
                          effects := [.simulated tx, .settled td], cache := cache }
                      else
                        let cache2 := store now cache (sr.signature.getD "")
                          (vr.payer.getD "") (vr.amount.getD 0) targetPath
                        let sresp : SettleResponse :=
                          { payer := vr.payer, transaction := sr.signature.getD "",
                            network := env.network }
                        let pb := proxyToBackend env O req targetPath (some sresp)
                        { resp := pb.1, effects := [.simulated tx, .settled td] ++ pb.2,
                          cache := cache2 }

/-- JS-number exactness bound: the required amount and every decodable
transfer amount in the transaction lie below 2^53, where `Number` conversion
of the u64 read is exact. -/
def amountsExact (expected : Nat) (tx : Tx) : Bool :=
  decide (expected < 2 ^ 53) &&
    tx.instructions.all (fun i =>
      match readUInt64LE i.data 4 with
      | none => true
      | some a => decide (a < 2 ^ 53))

/-- A transaction whose only instruction is a system-program instruction
with one byte of data: `readUInt32LE` throws on it. -/
def c1CexTx : Tx :=
  { signatures := [], instructions := [{ programId := systemProgramId, data := [2], keys := [] }] }

/-- A transaction with one well-formed transfer of 5 units to "R". -/
def c1WitnessTx : Tx :=
  { signatures := ["PAYER"],
    instructions := [{ programId := systemProgramId,
                       data := [2, 0, 0, 0, 5, 0, 0, 0, 0, 0, 0, 0],
                       keys := ["S", "R"] }] }

/-- Concrete environment used by witnesses. -/
def cexEnv : Env := { network := "solana-devnet", recipient := "R", backendUrl := "http://b" }

/-- The first configured pricing rule. -/
def riskRule : ProtectedResource :=
  { pat := "/api/reports/risk/", price := 1000000, description := "Risk Analysis (0.001 SOL)" }

/-- Oracles whose parser always throws and whose backend answers 200. -/
def stubOracles : Oracles :=
  { parse := fun _ => .error "bad json",
    deserialize := fun _ => .error "bad tx",
    simulate := fun _ => { success := false, error := some "err" },
    settle := fun _ => { success := false, signature := none, error := none },
    backend := fun _ => some { status := 200, body := .obj [("ok", .bool true)] } }

/-- An unprotected request carrying a client header and a query string. -/
def plainReq : Request :=
  { method := "GET", path := "/x402/proxy/info", query := "?q=1", protocol := "http",
    host := "h", headers := [("X-Custom", "abc")], body := .null }

/-- A protected request without a payment header. -/
def chalReq : Request :=
  { method := "GET", path := "/x402/proxy/api/reports/risk/W", query := "", protocol := "http",
    host := "h", headers := [], body := .null }

/-- A protected request with a payment header. -/
def payReq : Request :=
  { method := "GET", path := "/x402/proxy/api/reports/risk/W", query := "", protocol := "http",
    host := "h", headers := [("x-payment", "HDR")], body := .null }

/-- A transaction paying 1000000 units to "R". -/
def payTx : Tx :=
  { signatures := ["PAYER"],
    instructions := [{ programId := systemProgramId,
                       data := [2, 0, 0, 0, 64, 66, 15, 0, 0, 0, 0, 0],
                       keys := ["S", "R"] }] }

/-- A well-formed parsed payload carrying transaction string "TXB64". -/
def simFailParsed : ParsedPayload :=
  { x402Version := some 1, scheme := some "exact", network := some "solana-devnet",
    payloadT := some "TXB64", payloadS := none }

/-- Oracles for a request that passes decode/verify and fails simulation. -/
def simFailOracles : Oracles :=
  { parse := fun _ => .ok simFailParsed,
    deserialize := fun _ => .ok payTx,
    simulate := fun _ => { success := false, error := some "InstructionError" },
    settle := fun _ => { success := true, signature := some "SIG", error := none },
    backend := fun _ => none }

/-- A parsed payload carrying protocolVersion 2. -/
def badVerParsed : ParsedPayload :=
  { x402Version := some 2, scheme := some "exact", network := some "solana-devnet",
    payloadT := some "T", payloadS := none }

/-- Oracles whose parsed payload carries protocolVersion 2. -/
def badVerOracles : Oracles :=
  { parse := fun _ => .ok badVerParsed,
    deserialize := fun _ => .error "x",
    simulate := fun _ => { success := false, error := none },
    settle := fun _ => { success := false, signature := none, error := none },
    backend := fun _ => none }

/-- A settle response used when exercising the relay after settlement. -/
def sr0 : SettleResponse := { payer := some "P", transaction := "SIG", network := "solana-devnet" }

/-- Oracles whose backend replies 200 with a JSON null body. -/
def nullBodyOracles : Oracles :=
  { parse := fun _ => .error "e",
    deserialize := fun _ => .error "e",
    simulate := fun _ => { success := true, error := none },
    settle := fun _ => { success := true, signature := some "SIG", error := none },
    backend := fun _ => some { status := 200, body := Json.null } }

/-- Oracles whose backend replies 200 with a truthy success field and a
truthy primitive data field. -/
def primDataOracles : Oracles :=
  { parse := fun _ => .error "e",
    deserialize := fun _ => .error "e",
    simulate := fun _ => { success := true, error := none },
    settle := fun _ => { success := true, signature := some "SIG", error := none },
    backend := fun _ =>
      some { status := 200, body := .obj [("success", .bool true), ("data", .num 5)] } }

theorem charSextet_sextetChar : ∀ n, n < 64 → charSextet (sextetChar n) = some n := by
  decide

theorem sextetChar_ne_eq (n : Nat) (h : n < 64) : (sextetChar n = '=') = False := by
  simp only [eq_iff_iff, iff_false]
  revert h
  revert n
  decide

theorem decode_encode_chunks :
    ∀ l : List Nat, (∀ b ∈ l, b < 256) → decodeChunks (encodeChunks l) = some l := by
  intro l
  induction l using encodeChunks.induct with
  | case1 =>
    intro _
    simp [encodeChunks, decodeChunks]
  | case2 b0 =>
    intro hb
    have h0 : b0 < 256 := hb b0 (by simp)
    have h1 : b0 / 4 < 64 := by omega
    have h2 : b0 % 4 * 16 < 64 := by omega
    simp [encodeChunks, decodeChunks,
      charSextet_sextetChar _ h1, charSextet_sextetChar _ h2]
    generalize hm : b0 % 4 = m
    omega
  | case3 b0 b1 =>
    intro hb
    have h0 : b0 < 256 := hb b0 (by simp)
    have h1 : b1 < 256 := hb b1 (by simp)
    have s0 : b0 / 4 < 64 := by omega
    have s1 : b0 % 4 * 16 + b1 / 16 < 64 := by omega
    have s2 : b1 % 16 * 4 < 64 := by omega
    simp [encodeChunks, decodeChunks, sextetChar_ne_eq _ s2,
      charSextet_sextetChar _ s0, charSextet_sextetChar _ s1, charSextet_sextetChar _ s2]
    generalize hm : b0 % 4 = m
    generalize hd : b1 / 16 = d
    generalize he : b1 % 16 = e
    omega
  | case4 b0 b1 b2 rest ih =>
    intro hb
    have h0 : b0 < 256 := hb b0 (by simp)
    have h1 : b1 < 256 := hb b1 (by simp)
    have h2 : b2 < 256 := hb b2 (by simp)
    have hr : ∀ b ∈ rest, b < 256 := by
      intro b hbm
      exact hb b (by simp [hbm])
    have s0 : (b0 * 65536 + b1 * 256 + b2) / 262144 < 64 := by omega
    have s1 : (b0 * 65536 + b1 * 256 + b2) / 4096 % 64 < 64 := by omega
    have s2 : (b0 * 65536 + b1 * 256 + b2) / 64 % 64 < 64 := by omega
    have s3 : (b0 * 65536 + b1 * 256 + b2) % 64 < 64 := by omega
    simp [encodeChunks, decodeChunks, sextetChar_ne_eq _ s2, sextetChar_ne_eq _ s3,
      charSextet_sextetChar _ s0, charSextet_sextetChar _ s1,
      charSextet_sextetChar _ s2, charSextet_sextetChar _ s3, ih hr]
    generalize g0 : (b0 * 65536 + b1 * 256 + b2) / 262144 = t0
    generalize g1 : (b0 * 65536 + b1 * 256 + b2) / 4096 % 64 = t1
    generalize g2 : (b0 * 65536 + b1 * 256 + b2) / 64 % 64 = t2
    generalize g3 : (b0 * 65536 + b1 * 256 + b2) % 64 = t3
    omega

theorem base64_roundtrip (s : String) (h : asciiOnly s = true) :
    base64DecodeToBytes (base64EncodeString s) = some (strBytes s) := by
  have hbytes : ∀ b ∈ strBytes s, b < 256 := by
    intro b hbm
    simp only [strBytes, List.mem_map] at hbm
    obtain ⟨c, hc, rfl⟩ := hbm
    have := List.all_eq_true.mp h c hc
    simp only [decide_eq_true_eq] at this
    omega
  simp only [base64DecodeToBytes, base64EncodeString]
  exact decode_encode_chunks _ hbytes

theorem mapGet_mapSet (l : CacheState) (k : String) (v : Receipt) :
    mapGet (mapSet l k v) k = some v := by
  induction l with
  | nil => simp [mapSet, mapGet]
  | cons e rest ih =>
    obtain ⟨k0, v0⟩ := e
    by_cases h : k0 = k
    · simp [mapSet, h, mapGet]
    · have hb : (k0 == k) = false := by simpa using h
      simp only [mapSet, if_neg h]
      simpa [mapGet, List.find?_cons, hb] using ih

theorem mapGet_cleanup (now : Nat) (l : CacheState) (k : String) (v : Receipt)
    (hget : mapGet l k = some v) (hlive : ¬ now > v.expiresAt) :
    mapGet (cleanup now l) k = some v := by
  induction l with
  | nil => simp [mapGet] at hget
  | cons e rest ih =>
    obtain ⟨k0, v0⟩ := e
    by_cases h : k0 = k
    · subst h
      simp only [mapGet, List.find?_cons, beq_self_eq_true, Option.map_some] at hget
      have hv : v0 = v := by simpa using hget
      subst hv
      simp [cleanup, mapGet, List.find?_cons, hlive]
    · have hb : (k0 == k) = false := by simpa using h
      have hget' : mapGet rest k = some v := by
        simpa [mapGet, List.find?_cons, hb] using hget
      by_cases hk : now > v0.expiresAt
      · simpa [cleanup, hk] using ih hget'
      · simpa [cleanup, mapGet, List.find?_cons, hk, hb] using ih hget'

theorem store_mapGet (now : Nat) (l : CacheState) (sig payer : String) (amount : Nat)
    (resource : String) :
    mapGet (store now l sig payer amount resource) sig =
      some (mkReceipt now sig payer amount resource) := by
  refine mapGet_cleanup now _ sig _ (mapGet_mapSet l sig _) ?_
  simp [mkReceipt]

theorem countKey_eq_zero_of_notin (l : CacheState) (k : String)
    (hnotin : k ∉ l.map Prod.fst) : countKey l k = 0 := by
  induction l with
  | nil => simp [countKey]
  | cons e rest ih =>
    obtain ⟨k0, v0⟩ := e
    have h0 : ¬ k0 = k := by
      intro h
      exact hnotin (by simp [h])
    have hb : (k0 == k) = false := by simpa using h0
    have hrest : k ∉ rest.map Prod.fst := by
      intro h
      exact hnotin (by simp [h])
    simpa [countKey, List.filter_cons, hb] using ih hrest

theorem countKey_mapSet (l : CacheState) (k : String) (v : Receipt) (hwf : cacheWF l) :
    countKey (mapSet l k v) k = 1 := by
  induction l with
  | nil => simp [mapSet, countKey]
  | cons e rest ih =>
    obtain ⟨k0, v0⟩ := e
    have hwf' : cacheWF rest := by
      simpa [cacheWF] using (List.nodup_cons.mp hwf).2
    by_cases h : k0 = k
    · subst h
      have hnotin : k0 ∉ rest.map Prod.fst := (List.nodup_cons.mp hwf).1
      have hz : countKey rest k0 = 0 := countKey_eq_zero_of_notin rest k0 hnotin
      simp only [mapSet, if_pos rfl]
      simpa [countKey, List.filter_cons] using hz
    · have hb : (k0 == k) = false := by simpa using h
      simp only [mapSet, if_neg h]
      simpa [countKey, List.filter_cons, hb] using ih hwf'

theorem countKey_cleanup_le (now : Nat) (l : CacheState) (k : String) :
    countKey (cleanup now l) k ≤ countKey l k := by
  have h : (cleanup now l).Sublist l := List.filter_sublist l
  simpa [countKey] using (h.filter (fun e => e.1 == k)).length_le

theorem countKey_pos_of_mapGet (l : CacheState) (k : String) (v : Receipt)
    (h : mapGet l k = some v) : 1 ≤ countKey l k := by
  induction l with
  | nil => simp [mapGet] at h
  | cons e rest ih =>
    obtain ⟨k0, v0⟩ := e
    by_cases hk : k0 = k
    · simp [countKey, List.filter_cons, hk]
    · have hb : (k0 == k) = false := by simpa using hk
      have h' : mapGet rest k = some v := by
        simpa [mapGet, List.find?_cons, hb] using h
      simpa [countKey, List.filter_cons, hb] using ih h'

theorem countKey_store (now : Nat) (l : CacheState) (sig payer : String) (amount : Nat)
    (resource : String) (hwf : cacheWF l) :
    countKey (store now l sig payer amount resource) sig = 1 := by
  refine le_antisymm ?_ (countKey_pos_of_mapGet _ _ _ (store_mapGet now l sig payer amount resource))
  calc countKey (store now l sig payer amount resource) sig
      ≤ countKey (mapSet l sig (mkReceipt now sig payer amount resource)) sig :=
        countKey_cleanup_le _ _ _
    _ = 1 := countKey_mapSet l sig _ hwf

theorem mem_keys_mapSet (l : CacheState) (k k1 : String) (v : Receipt)
    (h : k1 ∈ (mapSet l k v).map Prod.fst) : k1 = k ∨ k1 ∈ l.map Prod.fst := by
  induction l with
  | nil => simpa [mapSet] using h
  | cons e rest ih =>
    obtain ⟨k0, v0⟩ := e
    by_cases hk : k0 = k
    · subst hk
      simpa [mapSet] using h
    · simp only [mapSet, if_neg hk, List.map_cons, List.mem_cons] at h
      rcases h with h | h
      · simp [h]
      · rcases ih h with h | h
        · exact Or.inl h
        · exact Or.inr (by simp [h])

theorem cacheWF_mapSet (l : CacheState) (k : String) (v : Receipt) (hwf : cacheWF l) :
    cacheWF (mapSet l k v) := by
  induction l with
  | nil => simp [mapSet, cacheWF]
  | cons e rest ih =>
    obtain ⟨k0, v0⟩ := e
    have hnotin : k0 ∉ rest.map Prod.fst := (List.nodup_cons.mp hwf).1
    have hwf' : cacheWF rest := by simpa [cacheWF] using (List.nodup_cons.mp hwf).2
    by_cases hk : k0 = k
    · subst hk
      simp only [mapSet, if_pos rfl]
      simpa [cacheWF] using hwf
    · simp only [mapSet, if_neg hk, cacheWF, List.map_cons, List.nodup_cons]
      refine ⟨?_, ih hwf'⟩
      intro hmem
      rcases mem_keys_mapSet rest k k0 v hmem with h | h
      · exact hk h
      · exact hnotin h

theorem cacheWF_cleanup (now : Nat) (l : CacheState) (hwf : cacheWF l) :
    cacheWF (cleanup now l) := by
  have h : (cleanup now l).Sublist l := List.filter_sublist l
  exact (h.map Prod.fst).nodup hwf

theorem cacheWF_store (now : Nat) (l : CacheState) (sig payer : String) (amount : Nat)
    (resource : String) (hwf : cacheWF l) :
    cacheWF (store now l sig payer amount resource) :=
  cacheWF_cleanup _ _ (cacheWF_mapSet _ _ _ hwf)

theorem mapGet_mapDelete (l : CacheState) (k : String) (hwf : cacheWF l) :
    mapGet (mapDelete l k) k = none := by
  induction l with
  | nil => simp [mapDelete, mapGet]
  | cons e rest ih =>
    obtain ⟨k0, v0⟩ := e
    have hnotin : k0 ∉ rest.map Prod.fst := (List.nodup_cons.mp hwf).1
    have hwf' : cacheWF rest := by simpa [cacheWF] using (List.nodup_cons.mp hwf).2
    by_cases hk : k0 = k
    · subst hk
      simp only [mapDelete, List.eraseP_cons, beq_self_eq_true, cond_true]
      have hfind : List.find? (fun e => e.1 == k0) rest = none := by
        rw [List.find?_eq_none]
        intro e he hbe
        exact absurd (by
          have he1 : e.1 = k0 := by simpa using hbe
          simpa [he1] using List.mem_map_of_mem Prod.fst he) hnotin
      simp [mapGet, hfind]
    · have hb : (k0 == k) = false := by simpa using hk
      simp only [mapDelete, List.eraseP_cons, hb, cond_false]
      simpa [mapGet, List.find?_cons, hb] using ih hwf'

theorem scanInstrs_eq_spec (recipient : String) (expected : Nat) (instrs : List Instr)
    (hwf : wfSysInstrs instrs = true) :
    scanInstrs recipient expected instrs =
      match firstRecipientTransfer recipient instrs with
      | none => .nomatch
      | some amt => if amt ≥ expected then .found amt else .insufficient amt := by
  induction instrs with
  | nil => simp [scanInstrs, firstRecipientTransfer]
  | cons i rest ih =>
    have hwfi : (if i.programId = systemProgramId then
        match readUInt32LE i.data 0 with
        | none => false
        | some t => if t = 2 then decide (12 ≤ i.data.length) else true
      else true) = true := by
      have := List.all_eq_true.mp hwf i (by simp)
      simpa using this
    have hwfr : wfSysInstrs rest = true := by
      simp only [wfSysInstrs, List.all_cons, Bool.and_eq_true] at hwf
      exact hwf.2
    by_cases hp : i.programId = systemProgramId
    · rw [if_pos hp] at hwfi
      match hu32 : readUInt32LE i.data 0 with
      | none => rw [hu32] at hwfi; simp at hwfi
      | some t =>
        rw [hu32] at hwfi
        by_cases ht : t = 2
        · subst ht
          have hlen : 12 ≤ i.data.length := by simpa using hwfi
          have hu64 : ∃ amt, readUInt64LE i.data 4 = some amt := by
            simp only [readUInt64LE]
            rw [if_pos (by omega)]
            exact ⟨_, rfl⟩
          obtain ⟨amt, hamt⟩ := hu64
          match hkey : i.keys[1]? with
          | none =>
            have hnr : isRecipientTransfer recipient i = false := by
              simp [isRecipientTransfer, hkey]
            simp only [scanInstrs, if_pos hp, hu32, if_pos rfl, hamt, hkey]
            simp only [firstRecipientTransfer, List.find?_cons, hnr]
            exact ih hwfr
          | some toAccount =>
            by_cases hto : toAccount = recipient
            · subst hto
              have hr : isRecipientTransfer toAccount i = true := by
                simp [isRecipientTransfer, hp, hu32, hkey]
              simp only [scanInstrs, if_pos hp, hu32, if_pos rfl, hamt, hkey, if_pos rfl]
              simp only [firstRecipientTransfer, List.find?_cons, hr, Option.bind_some,
                Option.some_bind, hamt]
              by_cases hge : amt ≥ expected <;> simp [hge]
            · have hnr : isRecipientTransfer recipient i = false := by
                simp [isRecipientTransfer, hkey, hto]
              simp only [scanInstrs, if_pos hp, hu32, if_pos rfl, hamt, hkey, if_neg hto]
              simp only [firstRecipientTransfer, List.find?_cons, hnr]
              exact ih hwfr
        · have hnr : isRecipientTransfer recipient i = false := by
            simp [isRecipientTransfer, hu32, ht]
          simp only [scanInstrs, if_pos hp, hu32, if_neg ht]
          simp only [firstRecipientTransfer, List.find?_cons, hnr]
          exact ih hwfr
    · have hnr : isRecipientTransfer recipient i = false := by
        simp [isRecipientTransfer, hp]
      simp only [scanInstrs, if_neg hp]
      simp only [firstRecipientTransfer, List.find?_cons, hnr]
      exact ih hwfr

/-- C1 (amended): provided every system-program instruction decodes (at
least 4 data bytes, and at least 12 when its opcode is 2) and all amounts
are below 2^53, the verifier decides on the first native-transfer-program
transfer instruction whose destination equals the recipient: amount ≥
required gives a valid result recording that amount, amount < required
gives amount_insufficient immediately, and no instruction targeting the
recipient gives no_valid_transfer_to_recipient. -/
theorem C1_verifier_first_transfer (recipient : String) (expected : Nat) (tx : Tx)
    (hwf : wfSysInstrs tx.instructions = true)
    (hexact : amountsExact expected tx = true) :
    verifyTransaction recipient tx expected =
      match firstRecipientTransfer recipient tx.instructions with
      | none =>
        { isValid := false, invalidReason := some "no_valid_transfer_to_recipient",
          payer := none, amount := none }
      | some amt =>
        if amt ≥ expected then
          { isValid := true, invalidReason := none, payer := tx.signatures.head?,
            amount := some amt }
        else
          { isValid := false, invalidReason := some "amount_insufficient", payer := none,
            amount := some amt } := by
  unfold verifyTransaction
  rw [scanInstrs_eq_spec _ _ _ hwf]
  cases hfr : firstRecipientTransfer recipient tx.instructions with
  | none => simp
  | some amt => by_cases hge : amt ≥ expected <;> simp [hge]

theorem C1_verifier_first_transfer_witness :
    wfSysInstrs c1WitnessTx.instructions = true ∧
    firstRecipientTransfer "R" c1WitnessTx.instructions = some 5 ∧
    verifyTransaction "R" c1WitnessTx 5 =
      { isValid := true, invalidReason := none, payer := some "PAYER", amount := some 5 } := by
  refine ⟨by decide, by decide, ?_⟩
  have h := C1_verifier_first_transfer "R" 5 c1WitnessTx (by decide) (by decide)
  rw [h]
  decide

/-- C1 counterexample: on a transaction none of whose instructions targets
the recipient, but whose single system-program instruction has data too
short to decode, the verifier reports verification_error instead of the
claimed no_valid_transfer_to_recipient. -/
theorem C1_counterexample :
    firstRecipientTransfer "R" c1CexTx.instructions = none ∧
    (verifyTransaction "R" c1CexTx 100).invalidReason ≠ some "no_valid_transfer_to_recipient" ∧
    (verifyTransaction "R" c1CexTx 100).invalidReason = some "verification_error" := by
  decide

/-- C3 counterexample: a second `store` under the same signature, 1 ms
after the first and far inside the 5-minute TTL window, silently replaces
the live record: the only record left carries the later values. -/
theorem C3_counterexample :
    1001 ≤ 1000 + TTL_MS ∧
    mapGet (store 1000 [] "sig" "alice" 5 "/a") "sig" =
      some (mkReceipt 1000 "sig" "alice" 5 "/a") ∧
    mapGet (store 1001 (store 1000 [] "sig" "alice" 5 "/a") "sig" "bob" 7 "/b") "sig" =
      some (mkReceipt 1001 "sig" "bob" 7 "/b") ∧
    countKey (store 1001 (store 1000 [] "sig" "alice" 5 "/a") "sig" "bob" 7 "/b") "sig" = 1 := by
  decide

/-- C3 (amended): a second `store` under a colliding key within the TTL
window does overwrite the existing record silently — last write wins, and
exactly one record remains under the key. -/
theorem C3_store_overwrites (c : CacheState) (t1 t2 : Nat) (sig p1 p2 : String)
    (a1 a2 : Nat) (r1 r2 : String) (hwf : cacheWF c) (hwin : t2 ≤ t1 + TTL_MS) :
    mapGet (store t2 (store t1 c sig p1 a1 r1) sig p2 a2 r2) sig =
      some (mkReceipt t2 sig p2 a2 r2) ∧
    countKey (store t2 (store t1 c sig p1 a1 r1) sig p2 a2 r2) sig = 1 := by
  have hwf1 : cacheWF (store t1 c sig p1 a1 r1) := cacheWF_store _ _ _ _ _ _ hwf
  exact ⟨store_mapGet _ _ _ _ _ _, countKey_store _ _ _ _ _ _ hwf1⟩

theorem C3_store_overwrites_witness :
    cacheWF ([] : CacheState) ∧ 1001 ≤ 1000 + TTL_MS ∧
    mapGet (store 1001 (store 1000 [] "s" "a" 1 "/r" ) "s" "b" 2 "/q") "s" =
      some (mkReceipt 1001 "s" "b" 2 "/q") := by
  refine ⟨by simp [cacheWF], by decide, ?_⟩
  exact (C3_store_overwrites [] 1000 1001 "s" "a" "b" 1 2 "/r" "/q" (by simp [cacheWF])
    (by decide)).1

/-- C4: inserting the same signature twice leaves exactly one record, the
values of the later insert; once the 5-minute TTL has elapsed `isUsed` returns
false and lazily evicts the stale record. -/
theorem C4_receipt_store (c : CacheState) (hwf : cacheWF c)
    (t1 t2 t3 : Nat) (sig p1 p2 : String) (a1 a2 : Nat) (r1 r2 : String)
    (ht : t2 + TTL_MS < t3) :
    countKey (store t2 (store t1 c sig p1 a1 r1) sig p2 a2 r2) sig = 1 ∧
    mapGet (store t2 (store t1 c sig p1 a1 r1) sig p2 a2 r2) sig =
      some (mkReceipt t2 sig p2 a2 r2) ∧
    (isUsed t3 (store t2 (store t1 c sig p1 a1 r1) sig p2 a2 r2) sig).1 = false ∧
    mapGet (isUsed t3 (store t2 (store t1 c sig p1 a1 r1) sig p2 a2 r2) sig).2 sig = none := by
  have hwf1 : cacheWF (store t1 c sig p1 a1 r1) := cacheWF_store _ _ _ _ _ _ hwf
  have hwf2 : cacheWF (store t2 (store t1 c sig p1 a1 r1) sig p2 a2 r2) :=
    cacheWF_store _ _ _ _ _ _ hwf1
  have hget := store_mapGet t2 (store t1 c sig p1 a1 r1) sig p2 a2 r2
  have hexp : t3 > (mkReceipt t2 sig p2 a2 r2).expiresAt := by
    simp only [mkReceipt]
    omega
  refine ⟨countKey_store _ _ _ _ _ _ hwf1, hget, ?_, ?_⟩
  · simp [isUsed, hget, hexp]
  · simp only [isUsed, hget, if_pos hexp]
    exact mapGet_mapDelete _ _ hwf2

theorem proxyToBackend_effects (env : Env) (O : Oracles) (req : Request) (tp : String)
    (sO : Option SettleResponse) :
    (proxyToBackend env O req tp sO).2 = [.fetched (mkBackendCall env req tp sO)] := by
  simp only [proxyToBackend]
  cases hb : O.backend (mkBackendCall env req tp sO) with
  | none => simp [hb]
  | some reply =>
    simp only [hb]
    cases sO with
    | none => rfl
    | some sr =>
      obtain ⟨st, b⟩ := reply
      cases b
      case null => rfl
      all_goals repeat' split
      all_goals rfl

/-- C2: when the ledger simulation of the transaction of a request reports an
error, the response is 402 with an error field starting with
simulation_failed:, and no settlement submission or backend fetch is ever
issued for that request. -/
theorem C2_simulation_gates_settlement (env : Env) (O : Oracles) (now : Nat)
    (cache : CacheState) (req : Request) (r : ProtectedResource) (hdr : String)
    (payload : PaymentPayload) (td : String) (tx : Tx) (e : Option String)
    (hFind : findProtectedResource (removeFirstStr "/x402/proxy" req.path) = some r)
    (hHdr : getHeader req.headers "X-Payment" = some hdr) (hne : hdr ≠ "")
    (hDec : decodePaymentHeader O.parse hdr = .ok payload)
    (hNet : payload.network = env.network)
    (hTd : jsOrStr payload.transaction payload.serializedTransaction = some td)
    (htdne : td ≠ "")
    (hDes : O.deserialize td = .ok tx)
    (hVer : (verifyTransaction env.recipient tx r.price).isValid = true)
    (hSim : O.simulate tx = { success := false, error := e }) :
    (handleProxy env O now cache req).resp.status = 402 ∧
    getField (handleProxy env O now cache req).resp.body "error" =
      some (.str ("simulation_failed: " ++ e.getD "undefined")) ∧
    (∃ suffix, "simulation_failed: " ++ e.getD "undefined" = "simulation_failed:" ++ suffix) ∧
    (∀ s, Effect.settled s ∉ (handleProxy env O now cache req).effects) ∧
    (∀ c, Effect.fetched c ∉ (handleProxy env O now cache req).effects) ∧
    (handleProxy env O now cache req).cache = cache := by
  have hout : handleProxy env O now cache req =
      { resp := err402 ("simulation_failed: " ++ e.getD "undefined"),
        effects := [.simulated tx], cache := cache } := by
    simp only [handleProxy, hFind, hHdr, hDec, hTd, hDes, hSim]
    simp [hne, htdne, hNet, hVer]
  rw [hout]
  refine ⟨rfl, by simp [err402, err402Body, getField], ?_, ?_, ?_, rfl⟩
  · refine ⟨" " ++ e.getD "undefined", ?_⟩
    rw [← String.append_assoc]
    congr 1
  · intro s
    simp
  · intro c
    simp

/-- C7: a payment payload whose protocolVersion differs from 1 fails in
decoding and is answered 402 before any network call: no simulation, no
settlement, no backend fetch. -/
theorem C7_version_gate (env : Env) (O : Oracles) (now : Nat) (cache : CacheState)
    (req : Request) (r : ProtectedResource) (hdr : String) (p : ParsedPayload)
    (hFind : findProtectedResource (removeFirstStr "/x402/proxy" req.path) = some r)
    (hHdr : getHeader req.headers "X-Payment" = some hdr) (hne : hdr ≠ "")
    (hPa : O.parse hdr = .ok p)
    (hv : p.x402Version ≠ some 1) :
    (handleProxy env O now cache req).resp.status = 402 ∧
    (handleProxy env O now cache req).resp.body = err402Body "Invalid x402Version" ∧
    (handleProxy env O now cache req).effects = [] ∧
    (∀ t, Effect.simulated t ∉ (handleProxy env O now cache req).effects) ∧
    (∀ s, Effect.settled s ∉ (handleProxy env O now cache req).effects) ∧
    (∀ c, Effect.fetched c ∉ (handleProxy env O now cache req).effects) := by
  have hdec : decodePaymentHeader O.parse hdr = .error "Invalid x402Version" := by
    simp [decodePaymentHeader, hPa, hv]
  have hout : handleProxy env O now cache req =
      { resp := err402 "Invalid x402Version", effects := [], cache := cache } := by
    simp only [handleProxy, hFind, hHdr, hdec]
    simp [hne]
  rw [hout]
  exact ⟨rfl, rfl, rfl, by intro t; simp, by intro s; simp, by intro c; simp⟩

/-- C6: the payload codec fails with the malformed-payload message when
base64/JSON decoding throws, with the version/scheme messages on a
mismatched protocolVersion or scheme, and with the missing-transaction
message when no transaction bytes are present under either field name; each
failure produces an ordinary 402 response carrying the failure code as the
error field (the handler returns normally — no crash), with no network
call.  The spec labels MalformedPayload, UnsupportedVersion,
UnsupportedScheme and MissingTransaction stand for the thrown messages, the
parse error detail, "Invalid x402Version", "Invalid scheme" and "Missing
transaction data" respectively. -/
theorem C6_codec_failures (env : Env) (O : Oracles) (now : Nat) (cache : CacheState)
    (req : Request) (r : ProtectedResource) (hdr : String)
    (hFind : findProtectedResource (removeFirstStr "/x402/proxy" req.path) = some r)
    (hHdr : getHeader req.headers "X-Payment" = some hdr) (hne : hdr ≠ "") :
    (∀ m, O.parse hdr = .error m →
      (handleProxy env O now cache req).resp.status = 402 ∧
      (handleProxy env O now cache req).resp.body = err402Body m ∧
      (handleProxy env O now cache req).effects = []) ∧
    (∀ p, O.parse hdr = .ok p → p.x402Version ≠ some 1 →
      (handleProxy env O now cache req).resp.status = 402 ∧
      (handleProxy env O now cache req).resp.body = err402Body "Invalid x402Version" ∧
      (handleProxy env O now cache req).effects = []) ∧
    (∀ p, O.parse hdr = .ok p → p.x402Version = some 1 → p.scheme ≠ some "exact" →
      (handleProxy env O now cache req).resp.status = 402 ∧
      (handleProxy env O now cache req).resp.body = err402Body "Invalid scheme" ∧
      (handleProxy env O now cache req).effects = []) ∧
    (∀ p n, O.parse hdr = .ok p → p.x402Version = some 1 → p.scheme = some "exact" →
      p.network = some n → n ≠ "" →
      jsTruthyStr (jsOrStr p.payloadT p.payloadS) = false →
      (handleProxy env O now cache req).resp.status = 402 ∧
      (handleProxy env O now cache req).resp.body = err402Body "Missing transaction data" ∧
      (handleProxy env O now cache req).effects = []) := by
  refine ⟨?_, ?_, ?_, ?_⟩
  · intro m hPa
    have hdec : decodePaymentHeader O.parse hdr = .error m := by
      simp [decodePaymentHeader, hPa]
    have hout : handleProxy env O now cache req =
        { resp := err402 m, effects := [], cache := cache } := by
      simp only [handleProxy, hFind, hHdr, hdec]
      simp [hne]
    rw [hout]
    exact ⟨rfl, rfl, rfl⟩
  · intro p hPa hv
    have hdec : decodePaymentHeader O.parse hdr = .error "Invalid x402Version" := by
      simp [decodePaymentHeader, hPa, hv]
    have hout : handleProxy env O now cache req =
        { resp := err402 "Invalid x402Version", effects := [], cache := cache } := by
      simp only [handleProxy, hFind, hHdr, hdec]
      simp [hne]
    rw [hout]
    exact ⟨rfl, rfl, rfl⟩
  · intro p hPa hv hs
    have hdec : decodePaymentHeader O.parse hdr = .error "Invalid scheme" := by
      simp [decodePaymentHeader, hPa, hv, hs]
    have hout : handleProxy env O now cache req =
        { resp := err402 "Invalid scheme", effects := [], cache := cache } := by
      simp only [handleProxy, hFind, hHdr, hdec]
      simp [hne]
    rw [hout]
    exact ⟨rfl, rfl, rfl⟩
  · intro p n hPa hv hs hn hnne htx
    have hdec : decodePaymentHeader O.parse hdr = .error "Missing transaction data" := by
      simp [decodePaymentHeader, hPa, hv, hs, hn, hnne, htx]
    have hout : handleProxy env O now cache req =
        { resp := err402 "Missing transaction data", effects := [], cache := cache } := by
      simp only [handleProxy, hFind, hHdr, hdec]
      simp [hne]
    rw [hout]
    exact ⟨rfl, rfl, rfl⟩

/-- C5: a protected path requested without an X-Payment header (the header
lookup is case-insensitive) is answered 402 with the JSON envelope
x402Version 1 / error "Payment Required" / accepts [requirement], where
maxAmountRequired is the decimal string of the configured price, and the
PAYMENT-REQUIRED response header is the base64 encoding of that body
(decoding it returns the body bytes). -/
theorem C5_challenge_response (env : Env) (O : Oracles) (now : Nat) (cache : CacheState)
    (req : Request) (r : ProtectedResource)
    (hFind : findProtectedResource (removeFirstStr "/x402/proxy" req.path) = some r)
    (hHdr : getHeader req.headers "X-Payment" = none)
    (hAscii : asciiOnly (stringify (createX402Response env r
      (req.protocol ++ "://" ++ req.host ++ req.path ++ req.query))) = true) :
    (handleProxy env O now cache req).resp.status = 402 ∧
    (handleProxy env O now cache req).resp.body =
      createX402Response env r (req.protocol ++ "://" ++ req.host ++ req.path ++ req.query) ∧
    getField (handleProxy env O now cache req).resp.body "x402Version" = some (.num 1) ∧
    getField (handleProxy env O now cache req).resp.body "error" =
      some (.str "Payment Required") ∧
    (∃ acc, getField (handleProxy env O now cache req).resp.body "accepts" =
        some (.arr [acc]) ∧
      getField acc "maxAmountRequired" = some (.str (Nat.repr r.price)) ∧
      getField acc "payTo" = some (.str env.recipient)) ∧
    (handleProxy env O now cache req).resp.headers =
      [("PAYMENT-REQUIRED",
        base64EncodeString (stringify (handleProxy env O now cache req).resp.body))] ∧
    base64DecodeToBytes
        (base64EncodeString (stringify (handleProxy env O now cache req).resp.body)) =
      some (strBytes (stringify (handleProxy env O now cache req).resp.body)) ∧
    (handleProxy env O now cache req).effects = [] := by
  have hout : handleProxy env O now cache req =
      { resp := { status := 402,
                  headers := [("PAYMENT-REQUIRED", encodeHeaderJ (createX402Response env r
                    (req.protocol ++ "://" ++ req.host ++ req.path ++ req.query)))],
                  body := createX402Response env r
                    (req.protocol ++ "://" ++ req.host ++ req.path ++ req.query) },
        effects := [], cache := cache } := by
    simp only [handleProxy, hFind, hHdr]
  rw [hout]
  refine ⟨rfl, rfl, by simp [createX402Response, getField], by simp [createX402Response, getField],
    ⟨.obj [("scheme", .str "exact"), ("network", .str env.network),
           ("maxAmountRequired", .str (Nat.repr r.price)),
           ("resource", .str (req.protocol ++ "://" ++ req.host ++ req.path ++ req.query)),
           ("description", .str r.description), ("mimeType", .str "application/json"),
           ("payTo", .str env.recipient), ("maxTimeoutSeconds", .num 300),
           ("asset", .str "So11111111111111111111111111111111111111112")],
      by simp [createX402Response, getField], by simp [getField], by simp [getField]⟩,
    rfl, base64_roundtrip _ hAscii, rfl⟩

theorem proxyToBackend_unsettled_headers (env : Env) (O : Oracles) (req : Request)
    (tp : String) :
    ((proxyToBackend env O req tp none).1).headers = [] := by
  simp only [proxyToBackend]
  cases hb : O.backend (mkBackendCall env req tp none) <;> simp [hb]

/-- C8 (amended): for a path matching no protected-resource rule the relay
issues exactly one backend fetch, forwarding the method, the stripped path
(query dropped) and, for non-GET methods, the body, with the client headers
replaced by the fixed facilitator set; no payment header is attached to the
forwarded request (no X-Payment-Settled) or to the relayed response (no
PAYMENT-REQUIRED / PAYMENT-RESPONSE), and the receipt cache is untouched. -/
theorem C8_unprotected_no_payment_headers (env : Env) (O : Oracles) (now : Nat)
    (cache : CacheState) (req : Request)
    (hFind : findProtectedResource (removeFirstStr "/x402/proxy" req.path) = none) :
    (handleProxy env O now cache req).effects =
      [.fetched (mkBackendCall env req (removeFirstStr "/x402/proxy" req.path) none)] ∧
    (mkBackendCall env req (removeFirstStr "/x402/proxy" req.path) none).headers =
      [("Content-Type", "application/json"), ("X-Facilitator-Verified", "true")] ∧
    (mkBackendCall env req (removeFirstStr "/x402/proxy" req.path) none).url =
      env.backendUrl ++ removeFirstStr "/x402/proxy" req.path ∧
    (mkBackendCall env req (removeFirstStr "/x402/proxy" req.path) none).method = req.method ∧
    (mkBackendCall env req (removeFirstStr "/x402/proxy" req.path) none).body =
      (if req.method ≠ "GET" then some req.body else none) ∧
    (handleProxy env O now cache req).resp.headers = [] ∧
    (handleProxy env O now cache req).cache = cache := by
  have hout : handleProxy env O now cache req =
      { resp := (proxyToBackend env O req (removeFirstStr "/x402/proxy" req.path) none).1,
        effects := (proxyToBackend env O req (removeFirstStr "/x402/proxy" req.path) none).2,
        cache := cache } := by
    simp only [handleProxy, hFind]
  rw [hout]
  refine ⟨proxyToBackend_effects _ _ _ _ _, rfl, rfl, rfl, rfl,
    proxyToBackend_unsettled_headers _ _ _ _, rfl⟩

/-- C9: every request the handler forwards to the content backend carries
only the stripped path (the query string never reaches the backend URL),
exactly the fixed header set — Content-Type, X-Facilitator-Verified, plus
X-Payment-Settled only when a settlement happened in the same request — and
a body only for non-GET methods. -/
theorem C9_forwarded_request_shape (env : Env) (O : Oracles) (now : Nat) (cache : CacheState)
    (req : Request) :
    ∀ c, Effect.fetched c ∈ (handleProxy env O now cache req).effects →
      c.url = env.backendUrl ++ removeFirstStr "/x402/proxy" req.path ∧
      c.method = req.method ∧
      c.body = (if req.method ≠ "GET" then some req.body else none) ∧
      (c.headers = [("Content-Type", "application/json"), ("X-Facilitator-Verified", "true")] ∨
        ∃ sr, c.headers = [("Content-Type", "application/json"),
            ("X-Facilitator-Verified", "true"),
            ("X-Payment-Settled", encodeHeaderJ (settleResponseJson sr))] ∧
          ∃ td, Effect.settled td ∈ (handleProxy env O now cache req).effects) := by
  intro c hmem
  cases hf : findProtectedResource (removeFirstStr "/x402/proxy" req.path) with
  | none =>
    have hout : handleProxy env O now cache req =
        { resp := (proxyToBackend env O req (removeFirstStr "/x402/proxy" req.path) none).1,
          effects := (proxyToBackend env O req (removeFirstStr "/x402/proxy" req.path) none).2,
          cache := cache } := by
      simp only [handleProxy, hf]
    rw [hout, proxyToBackend_effects] at hmem
    simp only [List.mem_singleton, Effect.fetched.injEq] at hmem
    subst hmem
    exact ⟨rfl, rfl, rfl, Or.inl rfl⟩
  | some r =>
    cases hh : getHeader req.headers "X-Payment" with
    | none =>
      have hout : (handleProxy env O now cache req).effects = [] := by
        simp only [handleProxy, hf, hh]
      rw [hout] at hmem
      simp at hmem
    | some hdr =>
      by_cases hdre : hdr = ""
      · have hout : (handleProxy env O now cache req).effects = [] := by
          simp only [handleProxy, hf, hh]
          simp [hdre]
        rw [hout] at hmem
        simp at hmem
      · cases hdec : decodePaymentHeader O.parse hdr with
        | error m =>
          have hout : (handleProxy env O now cache req).effects = [] := by
            simp only [handleProxy, hf, hh, hdec]
            simp [hdre]
          rw [hout] at hmem
          simp at hmem
        | ok payload =>
          by_cases hnet : payload.network ≠ env.network
          · have hout : (handleProxy env O now cache req).effects = [] := by
              simp only [handleProxy, hf, hh, hdec]
              simp [hdre, hnet]
            rw [hout] at hmem
            simp at hmem
          · cases htd : jsOrStr payload.transaction payload.serializedTransaction with
            | none =>
              have hout : (handleProxy env O now cache req).effects = [] := by
                simp only [handleProxy, hf, hh, hdec, htd]
                simp [hdre, hnet]
              rw [hout] at hmem
              simp at hmem
            | some td =>
              by_cases htde : td = ""
              · have hout : (handleProxy env O now cache req).effects = [] := by
                  simp only [handleProxy, hf, hh, hdec, htd]
                  simp [hdre, hnet, htde]
                rw [hout] at hmem
                simp at hmem
              · cases hdes : O.deserialize td with
                | error m =>
                  have hout : (handleProxy env O now cache req).effects = [] := by
                    simp only [handleProxy, hf, hh, hdec, htd, hdes]
                    simp [hdre, hnet, htde]
                  rw [hout] at hmem
                  simp at hmem
                | ok tx =>
                  by_cases hv : (verifyTransaction env.recipient tx r.price).isValid = false
                  · have hout : (handleProxy env O now cache req).effects = [] := by
                      simp only [handleProxy, hf, hh, hdec, htd, hdes]
                      simp [hdre, hnet, htde, hv]
                    rw [hout] at hmem
                    simp at hmem
                  · by_cases hsim : (O.simulate tx).success = false
                    · have hout : (handleProxy env O now cache req).effects =
                          [.simulated tx] := by
                        simp only [handleProxy, hf, hh, hdec, htd, hdes]
                        simp [hdre, hnet, htde, hv, hsim]
                      rw [hout] at hmem
                      simp at hmem
                    · by_cases hset : (O.settle td).success = false
                      · have hout : (handleProxy env O now cache req).effects =
                            [.simulated tx, .settled td] := by
                          simp only [handleProxy, hf, hh, hdec, htd, hdes]
                          simp [hdre, hnet, htde, hv, hsim, hset]
                        rw [hout] at hmem
                        simp at hmem
                      · have hout : (handleProxy env O now cache req).effects =
                            [.simulated tx, .settled td] ++
                              (proxyToBackend env O req (removeFirstStr "/x402/proxy" req.path)
                                (some { payer := (verifyTransaction env.recipient tx r.price).payer,
                                        transaction := (O.settle td).signature.getD "",
                                        network := env.network })).2 := by
                          simp only [handleProxy, hf, hh, hdec, htd, hdes]
                          simp [hdre, hnet, htde, hv, hsim, hset]
                        rw [hout, proxyToBackend_effects] at hmem
                        simp at hmem
                        subst hmem
                        refine ⟨rfl, rfl, rfl, Or.inr ⟨_, rfl, ⟨td, ?_⟩⟩⟩
                        rw [hout, proxyToBackend_effects]
                        simp

/-- C10 (amended): after a successful settlement, when the backend JSON
body parses, the relayed response is determined by the body shape as
follows.  A null body makes the member access in the truthiness check
throw, caught into 502 Backend unavailable.  Any other body failing the
truthy-success-and-truthy-data test is relayed unmodified with the
settlement proof only in the PAYMENT-RESPONSE header.  When the test
passes with an object-valued data member, paymentVerified and
paymentDetails are injected into it.  When the test passes with an
array-valued data member, the assigned properties are dropped by JSON
serialization and the body is relayed unmodified.  When the test passes
with a truthy primitive data member, the strict-mode property assignment
throws, caught into 502 Backend unavailable. -/
theorem C10_response_injection (env : Env) (O : Oracles) (req : Request) (tp : String)
    (sr : SettleResponse) (st : Nat) (b : Json)
    (hb : O.backend (mkBackendCall env req tp (some sr)) = some { status := st, body := b }) :
    (b = Json.null →
      (proxyToBackend env O req tp (some sr)).1.status = 502 ∧
      (proxyToBackend env O req tp (some sr)).1.body = failBody) ∧
    (b ≠ Json.null →
      (jsTruthy (getField b "success") && jsTruthy (getField b "data")) = false →
      (proxyToBackend env O req tp (some sr)).1.status = st ∧
      (proxyToBackend env O req tp (some sr)).1.body = b ∧
      (proxyToBackend env O req tp (some sr)).1.headers =
        [("PAYMENT-RESPONSE", encodeHeaderJ (settleResponseJson sr))]) ∧
    (∀ bkvs fs, b = .obj bkvs → getField b "data" = some (.obj fs) →
      (jsTruthy (getField b "success") && jsTruthy (getField b "data")) = true →
      (proxyToBackend env O req tp (some sr)).1.status = st ∧
      (proxyToBackend env O req tp (some sr)).1.body =
        .obj (setField bkvs "data" (.obj (setField
          (setField fs "paymentVerified" (.bool true))
          "paymentDetails" (paymentDetailsJson sr)))) ∧
      (proxyToBackend env O req tp (some sr)).1.headers =
        [("PAYMENT-RESPONSE", encodeHeaderJ (settleResponseJson sr))]) ∧
    (∀ bkvs a, b = .obj bkvs → getField b "data" = some (.arr a) →
      (jsTruthy (getField b "success") && jsTruthy (getField b "data")) = true →
      (proxyToBackend env O req tp (some sr)).1.status = st ∧
      (proxyToBackend env O req tp (some sr)).1.body = b ∧
      (proxyToBackend env O req tp (some sr)).1.headers =
        [("PAYMENT-RESPONSE", encodeHeaderJ (settleResponseJson sr))]) ∧
    (∀ bkvs d, b = .obj bkvs → getField b "data" = some d → jsonIsPrim d = true →
      (jsTruthy (getField b "success") && jsTruthy (getField b "data")) = true →
      (proxyToBackend env O req tp (some sr)).1.status = 502 ∧
      (proxyToBackend env O req tp (some sr)).1.body = failBody ∧
      (proxyToBackend env O req tp (some sr)).1.headers =
        [("PAYMENT-RESPONSE", encodeHeaderJ (settleResponseJson sr))]) := by
  refine ⟨?_, ?_, ?_, ?_, ?_⟩
  · intro hnull
    subst hnull
    simp only [proxyToBackend, hb]
    exact ⟨trivial, trivial⟩
  · intro hnn hcond
    simp only [proxyToBackend, hb]
    cases b with
    | null => exact absurd rfl hnn
    | bool v => simp [hcond]
    | num v => simp [hcond]
    | str v => simp [hcond]
    | arr v => simp [hcond]
    | obj v => simp [hcond]
  · intro bkvs fs hb' hdata hcond
    subst hb'
    have hcond' : (jsTruthy (getField (Json.obj bkvs) "success") &&
        jsTruthy (some (Json.obj fs))) = true := by
      rw [← hdata]
      exact hcond
    simp only [proxyToBackend, hb, hdata]
    split
    · exact ⟨rfl, rfl, rfl⟩
    · rename_i hcontra
      exact absurd hcond' hcontra
  · intro bkvs a hb' hdata hcond
    subst hb'
    have hcond' : (jsTruthy (getField (Json.obj bkvs) "success") &&
        jsTruthy (some (Json.arr a))) = true := by
      rw [← hdata]
      exact hcond
    simp only [proxyToBackend, hb, hdata]
    split
    · exact ⟨rfl, rfl, rfl⟩
    · rename_i hcontra
      exact absurd hcond' hcontra
  · intro bkvs d hb' hdata hprim hcond
    subst hb'
    have hcond' : (jsTruthy (getField (Json.obj bkvs) "success") &&
        jsTruthy (some d)) = true := by
      rw [← hdata]
      exact hcond
    simp only [proxyToBackend, hb, hdata]
    cases d with
    | null => simp [jsonIsPrim] at hprim
    | arr v => simp [jsonIsPrim] at hprim
    | obj v => simp [jsonIsPrim] at hprim
    | bool v =>
      split
      · exact ⟨rfl, rfl, rfl⟩
      · rename_i hcontra
        exact absurd hcond' hcontra
    | num v =>
      split
      · exact ⟨rfl, rfl, rfl⟩
      · rename_i hcontra
        exact absurd hcond' hcontra
    | str v =>
      split
      · exact ⟨rfl, rfl, rfl⟩
      · rename_i hcontra
        exact absurd hcond' hcontra

/-- C10 counterexample: after a successful settlement, a backend body of
JSON null — a body shape with neither a truthy success nor a truthy data
member — is not relayed unmodified: the paid client gets 502 Backend
unavailable.  Likewise a body with truthy success and a truthy primitive
data member, on which the claim would have the injection succeed or at
least the body pass through, also gets 502 rather than the body — forcing
the object-valued-data qualifier in the amendment. -/
theorem C10_counterexample :
    nullBodyOracles.backend (mkBackendCall cexEnv plainReq "/a" (some sr0)) =
      some { status := 200, body := Json.null } ∧
    (proxyToBackend cexEnv nullBodyOracles plainReq "/a" (some sr0)).1.status = 502 ∧
    (proxyToBackend cexEnv nullBodyOracles plainReq "/a" (some sr0)).1.body = failBody ∧
    failBody ≠ Json.null ∧
    primDataOracles.backend (mkBackendCall cexEnv plainReq "/a" (some sr0)) =
      some { status := 200, body := .obj [("success", .bool true), ("data", .num 5)] } ∧
    (jsTruthy (getField (.obj [("success", .bool true), ("data", .num 5)]) "success") &&
      jsTruthy (getField (.obj [("success", .bool true), ("data", .num 5)]) "data")) = true ∧
    (proxyToBackend cexEnv primDataOracles plainReq "/a" (some sr0)).1.status = 502 ∧
    (proxyToBackend cexEnv primDataOracles plainReq "/a" (some sr0)).1.body = failBody ∧
    failBody ≠ .obj [("success", .bool true), ("data", .num 5)] := by
  refine ⟨rfl, rfl, rfl, by simp [failBody], rfl, rfl, rfl, rfl, by simp [failBody]⟩

set_option maxRecDepth 16384 in
theorem C2_simulation_gates_settlement_witness :
    (handleProxy cexEnv simFailOracles 0 [] payReq).resp.status = 402 ∧
    (∀ s, Effect.settled s ∉ (handleProxy cexEnv simFailOracles 0 [] payReq).effects) := by
  have h := C2_simulation_gates_settlement cexEnv simFailOracles 0 [] payReq riskRule "HDR"
    { network := "solana-devnet", transaction := some "TXB64", serializedTransaction := none }
    "TXB64" payTx (some "InstructionError")
    (by decide) (by decide) (by decide) rfl (by decide) (by decide) (by decide)
    rfl (by decide) rfl
  exact ⟨h.1, h.2.2.2.1⟩

set_option maxRecDepth 16384 in
theorem C5_challenge_response_witness :
    (handleProxy cexEnv stubOracles 0 [] chalReq).resp.status = 402 ∧
    getField (handleProxy cexEnv stubOracles 0 [] chalReq).resp.body "error" =
      some (.str "Payment Required") := by
  have h := C5_challenge_response cexEnv stubOracles 0 [] chalReq riskRule
    (by decide) (by decide) (by decide)
  exact ⟨h.1, h.2.2.2.1⟩

set_option maxRecDepth 16384 in
theorem C6_codec_failures_witness :
    (handleProxy cexEnv stubOracles 0 [] payReq).resp.status = 402 ∧
    (handleProxy cexEnv stubOracles 0 [] payReq).resp.body = err402Body "bad json" := by
  have h := C6_codec_failures cexEnv stubOracles 0 [] payReq riskRule "HDR"
    (by decide) (by decide) (by decide)
  have h1 := h.1 "bad json" rfl
  exact ⟨h1.1, h1.2.1⟩

set_option maxRecDepth 16384 in
theorem C7_version_gate_witness :
    (handleProxy cexEnv badVerOracles 0 [] payReq).resp.status = 402 ∧
    (handleProxy cexEnv badVerOracles 0 [] payReq).effects = [] := by
  have h := C7_version_gate cexEnv badVerOracles 0 [] payReq riskRule "HDR" badVerParsed
    (by decide) (by decide) (by decide) rfl (by decide)
  exact ⟨h.1, h.2.2.1⟩

set_option maxRecDepth 16384 in
/-- C8 counterexample: on an unprotected request the forwarded request is
not the original request untouched — the client header X-Custom is dropped
(the header set is replaced) and the query string never reaches the backend
URL. -/
theorem C8_counterexample :
    getHeader plainReq.headers "X-Custom" = some "abc" ∧
    plainReq.query = "?q=1" ∧
    (handleProxy cexEnv stubOracles 0 [] plainReq).effects =
      [.fetched (mkBackendCall cexEnv plainReq "/info" none)] ∧
    getHeader (mkBackendCall cexEnv plainReq "/info" none).headers "X-Custom" = none ∧
    (mkBackendCall cexEnv plainReq "/info" none).url = "http://b/info" := by
  exact ⟨by decide, rfl, rfl, by decide, by decide⟩

set_option maxRecDepth 16384 in
theorem C8_unprotected_no_payment_headers_witness :
    (handleProxy cexEnv stubOracles 0 [] plainReq).resp.headers = [] ∧
    (handleProxy cexEnv stubOracles 0 [] plainReq).cache = [] := by
  have h := C8_unprotected_no_payment_headers cexEnv stubOracles 0 [] plainReq (by decide)
  exact ⟨h.2.2.2.2.2.1, h.2.2.2.2.2.2⟩

set_option maxRecDepth 16384 in
theorem C9_forwarded_request_shape_witness :
    (mkBackendCall cexEnv plainReq "/info" none).url =
      cexEnv.backendUrl ++ removeFirstStr "/x402/proxy" plainReq.path := by
  have hmem : Effect.fetched (mkBackendCall cexEnv plainReq "/info" none) ∈
      (handleProxy cexEnv stubOracles 0 [] plainReq).effects := by
    have he : (handleProxy cexEnv stubOracles 0 [] plainReq).effects =
        [Effect.fetched (mkBackendCall cexEnv plainReq "/info" none)] := rfl
    rw [he]
    exact List.mem_singleton.mpr rfl
  exact (C9_forwarded_request_shape cexEnv stubOracles 0 [] plainReq _ hmem).1

set_option maxRecDepth 16384 in
theorem C10_response_injection_witness :
    (proxyToBackend cexEnv stubOracles plainReq "/a"
      (some { payer := some "P", transaction := "SIG", network := "solana-devnet" })).1.body =
      .obj [("ok", .bool true)] := by
  have h := C10_response_injection cexEnv stubOracles plainReq "/a"
    { payer := some "P", transaction := "SIG", network := "solana-devnet" } 200
    (.obj [("ok", .bool true)]) rfl
  exact (h.2.1 (by simp) rfl).2.1

theorem C4_receipt_store_witness :
    cacheWF ([] : CacheState) ∧ (1001 : Nat) + TTL_MS < 400000 ∧
    (isUsed 400000 (store 1001 (store 1000 [] "s" "a" 1 "/r") "s" "b" 2 "/q") "s").1 = false := by
  refine ⟨by simp [cacheWF], by decide, ?_⟩
  exact (C4_receipt_store [] (by simp [cacheWF]) 1000 1001 400000 "s" "a" "b" 1 2 "/r" "/q"
    (by decide)).2.2.1

end SolanaStation

